import Mathlib

/-!
Verification of the registry-admin server core (`app/server/server.go`).

The Go code is shallowly embedded: external collaborators (the credential
store `engine.Interface` and the bcrypt comparison `store.ComparePassword`,
which live outside the embedded file) are abstracted as function parameters,
while the control flow of the server's own functions is translated branch by
branch.  Go `map[string]interface{}` attribute maps are modelled as
association lists with overwrite-on-insert semantics, and a `nil` map is
distinguished from an empty one with `Option`.
-/

namespace RegistryAdmin

/-- A value in a `map[string]interface{}` attribute map.  The code only ever
stores booleans (`SetBoolAttr`) and int64 ids (`Attributes["uid"] = u.ID`). -/
inductive Attr where
  | aBool : Bool → Attr
  | aInt : Int → Attr
  | aStr : String → Attr
deriving DecidableEq, Repr

/-- Lookup in an attribute map (association list, first match wins). -/
def mapGet (m : List (String × Attr)) (k : String) : Option Attr :=
  (m.find? (fun p => p.1 = k)).map (·.2)

/-- Go map assignment `m[k] = v`: overwrite any previous binding of `k`. -/
def mapSet (m : List (String × Attr)) (k : String) (v : Attr) :
    List (String × Attr) :=
  (k, v) :: m.filter (fun p => p.1 ≠ k)

/-- `token.User` of go-pkgz/auth, restricted to the fields the server code
reads or writes: name, string id, role and the attribute map.  `attributes =
none` models a Go `nil` map (the code checks `Attributes == nil`). -/
structure TokenUser where
  name : String
  id : String
  role : String
  attributes : Option (List (String × Attr))
deriving DecidableEq, Repr

/-- The zero value `token.User{}`. -/
def TokenUser.empty : TokenUser :=
  { name := "", id := "", role := "", attributes := none }

/-- `token.User.BoolAttr` of go-pkgz/auth: a lookup plus type assertion to
`bool`; a missing key, a `nil` map or a non-bool value all yield `false`. -/
def TokenUser.boolAttr (u : TokenUser) (k : String) : Bool :=
  match u.attributes with
  | none => false
  | some m =>
    match mapGet m k with
    | some (Attr.aBool b) => b
    | _ => false

/-- Attribute lookup through the possibly-nil map, for frame statements. -/
def TokenUser.attrGet (u : TokenUser) (k : String) : Option Attr :=
  match u.attributes with
  | none => none
  | some m => mapGet m k

/-- The Go idiom `if m == nil { m = make(map[string]interface{}) }`: the map
to write into, after the nil check. -/
def attrsOrEmpty (o : Option (List (String × Attr))) : List (String × Attr) :=
  match o with
  | none => []
  | some m => m

/-- `token.Claims` of go-pkgz/auth as the server uses it: the (possibly nil)
user pointer plus the remaining JWT fields, kept abstract as plain data so
frame conditions can mention them. -/
structure Claims where
  user : Option TokenUser
  issuer : String
  audience : String
  id : String
  expiresAt : Int
deriving DecidableEq, Repr

/-- `store.User`: the fields `BasicAuthCheckerFn` and `ClaimUpdateFn` read. -/
structure StoreUser where
  id : Int
  name : String
  password : String
  role : String
  disabled : Bool
deriving DecidableEq, Repr

/-- Result type of a store lookup `GetUser(ctx, name) (store.User, error)`. -/
abbrev GetUserFn := String → Except String StoreUser

/-- `store.ComparePassword(storedHash, candidate)`, abstracted (the store
package is an external collaborator of the embedded file). -/
abbrev CompareFn := String → String → Bool

/-- `Server.BasicAuthCheckerFn` (server.go:443-472), branch by branch:
lookup failure → `(false, empty, nil)`; disabled user → `(false, empty,
non-nil error)`; password mismatch → `(false, empty, nil)`; otherwise the
claim carries the stored name, role, `"uid"` attribute and decimal id.
The Go error message additionally wraps the login in single quotes. -/
def BasicAuthCheckerFn (getUser : GetUserFn) (comparePassword : CompareFn)
    (user password : String) : Bool × TokenUser × Option String :=
  let claim := TokenUser.empty
  match getUser user with
  | .error _ => (false, claim, none)
  | .ok u =>
    if u.disabled then
      (false, claim, some ("User with login " ++ user ++ " disabled"))
    else if comparePassword u.password password then
      let claim := { claim with name := u.name, role := u.role }
      let attrs := attrsOrEmpty claim.attributes
      let claim := { claim with
        attributes := some (mapSet attrs "uid" (Attr.aInt u.id)),
        id := toString u.id }
      (true, claim, none)
    else
      (false, claim, none)

/-- `Server.Check` (server.go:476-479): forwards to `BasicAuthCheckerFn`
and drops the claim. -/
def Check (getUser : GetUserFn) (comparePassword : CompareFn)
    (user password : String) : Bool × Option String :=
  let r := BasicAuthCheckerFn getUser comparePassword user password
  (r.1, r.2.2)

/-- `Server.Validate` (server.go:482-487): a nil user fails; otherwise the
claims are valid iff the `"disabled"` boolean attribute is not set. -/
def Validate (_token : String) (claims : Claims) : Bool :=
  match claims.user with
  | none => false
  | some u => !(u.boolAttr "disabled")

/-- `Server.ClaimUpdateFn` (server.go:424-440).  A `nil` `claims.User` would
dereference a nil pointer in Go (panic), modelled as `none`.  On lookup
failure the claims are returned unchanged; on success the role is set, the
map is created if nil, and the `"disabled"` and `"uid"` attributes are set
in that order. -/
def ClaimUpdateFn (getUser : GetUserFn) (claims : Claims) : Option Claims :=
  match claims.user with
  | none => none
  | some cu =>
    match getUser cu.name with
    | .error _ => some claims
    | .ok u =>
      let cu := { cu with role := u.role }
      let attrs := attrsOrEmpty cu.attributes
      let cu := { cu with
        attributes :=
          some (mapSet (mapSet attrs "disabled" (Attr.aBool u.disabled))
            "uid" (Attr.aInt u.id)) }
      some { claims with user := some cu }

/-! ### Route table of `Server.routes` (server.go:204-360)

Each registered route is recorded with its full middleware chain, outermost
first: the global `router.Use` chain, then the `/api/v1` group chain, then
the chains of the enclosing `Group`/`Route` blocks.  Per the go-pkgz/auth
library, `RBAC(roles...)` is `auth(true, roles...)`: it authenticates the
session itself and then checks the role, so a chain with an `rbac` entry is
an authenticated chain even without a separate `auth` entry. -/

/-- A middleware in a chi chain, as used by `Server.routes`. -/
inductive Mw where
  | throttle
  | realIP
  | recoverer
  | timeout
  | ping
  | cors
  | accessLog
  | rateLimit
  | trace
  | noCache
  | auth
  | rbac (roles : List String)
deriving DecidableEq, Repr

/-- A route registration: HTTP method, chi pattern, middleware chain. -/
structure Route where
  method : String
  pattern : String
  middlewares : List Mw
deriving DecidableEq, Repr

/-- Global middleware applied by `router.Use` (server.go:207-220). -/
def globalMw : List Mw :=
  [Mw.throttle, Mw.realIP, Mw.recoverer, Mw.timeout, Mw.ping, Mw.cors,
   Mw.accessLog]

/-- Middleware of the `/api/v1` root group (server.go:242-243). -/
def apiV1Mw : List Mw := globalMw ++ [Mw.rateLimit, Mw.trace, Mw.noCache]

/-- `GET /api/v1/registry/auth` (server.go:326): no extra middleware. -/
def authRoute : Route :=
  { method := "GET", pattern := "/api/v1/registry/auth", middlewares := apiV1Mw }

/-- `POST /api/v1/registry/events` (server.go:328-330). -/
def eventsRoute : Route :=
  { method := "POST", pattern := "/api/v1/registry/events",
    middlewares := apiV1Mw ++ [Mw.auth, Mw.noCache] }

/-- `GET /api/v1/registry/health` (server.go:328-331). -/
def healthRoute : Route :=
  { method := "GET", pattern := "/api/v1/registry/health",
    middlewares := apiV1Mw ++ [Mw.auth, Mw.noCache] }

/-- `GET /api/v1/registry/catalog` (server.go:334-339): the group applies
only `Auth` and `NoCache` — the code comment says "allows any users list
repositories, but user role can see allowed repositories only". -/
def catalogRoute : Route :=
  { method := "GET", pattern := "/api/v1/registry/catalog",
    middlewares := apiV1Mw ++ [Mw.auth, Mw.noCache] }

/-- `GET /api/v1/registry/catalog/blobs` (server.go:341-345). -/
def blobsRoute : Route :=
  { method := "GET", pattern := "/api/v1/registry/catalog/blobs",
    middlewares := apiV1Mw ++ [Mw.auth, Mw.noCache, Mw.rbac ["admin", "manager"]] }

/-- `GET /api/v1/registry/sync` (server.go:347-349): only `RBAC("admin")`. -/
def syncRoute : Route :=
  { method := "GET", pattern := "/api/v1/registry/sync",
    middlewares := apiV1Mw ++ [Mw.rbac ["admin"]] }

/-- `DELETE /api/v1/registry/catalog/*` (server.go:347-350): only
`RBAC("admin")`. -/
def deleteDigestRoute : Route :=
  { method := "DELETE", pattern := "/api/v1/registry/catalog/*",
    middlewares := apiV1Mw ++ [Mw.rbac ["admin"]] }

/-- The `/registry` subtree of the route table (server.go:325-352). -/
def registryRoutes : List Route :=
  [authRoute, eventsRoute, healthRoute, catalogRoute, blobsRoute, syncRoute,
   deleteDigestRoute]

/-- Whether a chain authenticates the session: it contains `Auth` or an
`RBAC` middleware (which wraps `auth(true, ...)` in go-pkgz/auth). -/
def chainAuthenticated (r : Route) : Bool :=
  r.middlewares.any (fun m =>
    match m with
    | Mw.auth => true
    | Mw.rbac _ => true
    | _ => false)

/-- Whether a chain contains an RBAC check admitting the given role. -/
def chainRBACAdmits (r : Route) (role : String) : Bool :=
  r.middlewares.any (fun m =>
    match m with
    | Mw.rbac roles => roles.contains role
    | _ => false)

/-- Whether a chain contains any RBAC check at all. -/
def chainHasRBAC (r : Route) : Bool :=
  r.middlewares.any (fun m =>
    match m with
    | Mw.rbac _ => true
    | _ => false)

/-! ### Startup behaviour of `Server.routes` around the htpasswd sync
(server.go:251-254, 321-322) -/

/-- Observable startup steps of `Server.routes`, in program order. -/
inductive StartupEff where
  | updateHtpasswd
  | startMaintenance
  | mountRegistryRoutes
deriving DecidableEq, Repr

/-- `Server.routes` as observed at startup: `UpdateHtpasswd` is called once
(server.go:252); a non-nil error panics (`panic(fmt.Errorf(...))`,
server.go:253) and no router is ever produced, so `Run` never serves and
the process terminates.  On success the maintenance scheduler is started
and the registry routes are mounted.  Returns the router (or the panic
message) together with the trace of startup steps executed. -/
def routesStartup (syncResult : Except String Unit) :
    Except String (List Route) × List StartupEff :=
  match syncResult with
  | .error e =>
    (.error ("failed to update htpasswd: " ++ e), [StartupEff.updateHtpasswd])
  | .ok _ =>
    (.ok registryRoutes,
     [StartupEff.updateHtpasswd, StartupEff.startMaintenance,
      StartupEff.mountRegistryRoutes])

/-! ### Maintenance scheduler (spec §4.6, §5)

`DataService.RepositoriesMaintenance` is started at server.go:322 but its
body lives in `app/store/service`, outside the embedded file; the scheduler
is therefore modelled from the spec. -/

/-- An event seen by the scheduler loop: a timer tick, or the completion of
the run it started. -/
inductive SchedEvent where
  | tick
  | finish
deriving DecidableEq, Repr

/-- What one event produced: a run started, a tick was skipped because a run
was still active, or a run finished. -/
inductive SchedOutcome where
  | started
  | skipped
  | finished
deriving DecidableEq, Repr

/-- Scheduler state: the number of maintenance runs currently active. -/
structure SchedState where
  activeRuns : Nat
deriving DecidableEq, Repr

/-- The scheduler's initial state: idle. -/
def schedInit : SchedState := { activeRuns := 0 }

/-- Modelled from the spec: the tick handler of `RepositoriesMaintenance`
("at most one run is active at a time — a tick that fires while a run is
still in progress is skipped, not queued", with a non-blocking
attempt-to-acquire guard).  A tick with a run still active leaves the state
unchanged, reports a skip, and raises no error; an idle tick starts a run;
a finish event ends the active run. -/
def schedStep (s : SchedState) (e : SchedEvent) :
    SchedState × SchedOutcome × Option String :=
  match e with
  | .tick =>
    if s.activeRuns ≠ 0 then (s, .skipped, none)
    else ({ activeRuns := s.activeRuns + 1 }, .started, none)
  | .finish => ({ activeRuns := s.activeRuns - 1 }, .finished, none)

/-- Run the scheduler over a whole event trace. -/
def schedRun (s : SchedState) : List SchedEvent → SchedState
  | [] => s
  | e :: es => schedRun (schedStep s e).1 es

/-! ### Registry deletion (spec §4.4) and the `registryInterface` signature

`DeleteTag(ctx, repoName, digest)` is declared at server.go:93-95 ("a
manifest can only be deleted by digest"); its implementation lives in
`app/registry`, outside the embedded file, so the deletion semantics is
modelled from the spec. -/

/-- A repository's tag set: pairs of tag name and manifest digest. -/
structure RepoState where
  tags : List (String × String)
deriving DecidableEq, Repr

/-- Modelled from the spec: resolving a tag to its manifest digest via the
manifest fetch (`Manifest(ctx, repoName, tag)` returns the manifest whose
digest addresses the tagged image). -/
def resolveTagDigest (r : RepoState) (tag : String) : Option String :=
  (r.tags.find? (fun p => p.1 = tag)).map (·.2)

/-- Modelled from the spec: `DeleteTag` takes a content digest, never a tag
name, and "deleting a digest removes every tag pointing to it". -/
def DeleteTag (r : RepoState) (digest : String) : RepoState :=
  { tags := r.tags.filter (fun p => p.2 ≠ digest) }

/-! ### Paginated listing (spec §4.4)

`Catalog(ctx, n, last)` and `ListingImageTags(ctx, repoName, n, last)` are
declared at server.go:80-85; their implementations live in `app/registry`,
outside the embedded file, so the pagination client is modelled from the
spec: the page-size hint `n` and the cursor `last` are placed verbatim in
the upstream query, and the upstream answer (items plus a more-pages flag
from the Link header) is returned as is — `last` is never interpreted. -/

/-- The query sent upstream for one listing page. -/
structure PageQuery where
  n : String
  last : String
deriving DecidableEq, Repr

/-- The upstream registry's answer to one listing page. -/
structure PageResponse where
  items : List String
  hasMore : Bool
deriving DecidableEq, Repr

/-- Modelled from the spec: build the upstream query, echoing `n` and
`last` verbatim. -/
def mkPageQuery (n last : String) : PageQuery := { n := n, last := last }

/-- Modelled from the spec: `Catalog` forwards `n` and `last` upstream and
returns the next page together with whether more pages remain. -/
def Catalog (upstream : PageQuery → PageResponse) (n last : String) :
    List String × Bool :=
  let resp := upstream (mkPageQuery n last)
  (resp.items, resp.hasMore)

/-- Modelled from the spec: `ListingImageTags` is `Catalog` with the
repository name added to the upstream call. -/
def ListingImageTags (upstream : String → PageQuery → PageResponse)
    (repoName n last : String) : List String × Bool :=
  let resp := upstream repoName (mkPageQuery n last)
  (resp.items, resp.hasMore)

/-! ### Helper lemmas on the attribute-map model -/

/-- Writing a key and reading it back yields the written value. -/
theorem mapGet_set_self (m : List (String × Attr)) (k : String) (v : Attr) :
    mapGet (mapSet m k v) k = some v := by
  simp [mapGet, mapSet]

/-- Filtering out the bindings of one key does not change the lookup of a
different key. -/
theorem mapGet_filter_ne (m : List (String × Attr)) (k k2 : String)
    (h : k2 ≠ k) :
    mapGet (m.filter (fun p => p.1 ≠ k)) k2 = mapGet m k2 := by
  induction m with
  | nil => rfl
  | cons a t ih =>
    obtain ⟨ka, va⟩ := a
    by_cases hka : ka = k
    · subst hka
      have h2 : ¬(ka = k2) := fun hc => h hc.symm
      simpa [mapGet, List.filter_cons, h2] using ih
    · by_cases hb : ka = k2
      · subst hb
        simp [mapGet, List.filter_cons, hka]
      · simpa [mapGet, List.filter_cons, hka, hb] using ih

/-- Writing one key does not change the lookup of a different key. -/
theorem mapGet_set_other (m : List (String × Attr)) (k k2 : String)
    (v : Attr) (h : k2 ≠ k) :
    mapGet (mapSet m k v) k2 = mapGet m k2 := by
  have h2 : ¬(k = k2) := fun hc => h hc.symm
  simpa [mapSet, mapGet, h2] using mapGet_filter_ne m k k2 h

/-! ### Concrete data for witnesses -/

/-- An enabled manager, stored in the demonstration store. -/
def aliceUser : StoreUser :=
  { id := 7, name := "alice", password := "hash-a", role := "manager",
    disabled := false }

/-- A disabled user, stored in the demonstration store. -/
def bobUser : StoreUser :=
  { id := 8, name := "bob", password := "hash-b", role := "user",
    disabled := true }

/-- A two-user demonstration store used to exercise the theorems. -/
def demoStore : GetUserFn := fun n =>
  if n = "alice" then .ok aliceUser
  else if n = "bob" then .ok bobUser
  else .error "user not found"

/-- A concrete password comparison for the demonstration store. -/
def demoCompare : CompareFn := fun stored candidate =>
  stored == "hash-a" && candidate == "secret"

/-- A token user for the disabled account, carrying `disabled = true`. -/
def bobTokenUser : TokenUser :=
  { name := "bob", id := "8", role := "user",
    attributes := some [("disabled", Attr.aBool true)] }

/-- Claims for the disabled account. -/
def bobClaims : Claims :=
  { user := some bobTokenUser, issuer := "registry-admin",
    audience := "registry", id := "jti-1", expiresAt := 3600 }

/-- A token user for alice carrying an unrelated attribute, to exercise the
frame condition of `ClaimUpdateFn`. -/
def aliceTokenUser : TokenUser :=
  { name := "alice", id := "7", role := "user",
    attributes := some [("theme", Attr.aStr "dark")] }

/-- Claims for alice before a token refresh. -/
def aliceClaims : Claims :=
  { user := some aliceTokenUser, issuer := "registry-admin",
    audience := "registry", id := "jti-2", expiresAt := 3600 }

/-! ### Claim theorems -/

/-- C1: a user whose `Disabled` flag is set in the store never
authenticates: `BasicAuthCheckerFn` returns `ok = false` with a non-nil
error for any password, and `Validate` returns `false` for any claims whose
user carries the boolean attribute `disabled = true`, so a disabled user
never obtains a session. -/
theorem disabled_user_never_authenticates (getUser : GetUserFn)
    (cmp : CompareFn) (name password tok : String) (u : StoreUser)
    (claims : Claims) (cu : TokenUser)
    (hu : getUser name = .ok u) (hd : u.disabled = true)
    (hcu : claims.user = some cu)
    (hdis : cu.boolAttr "disabled" = true) :
    (BasicAuthCheckerFn getUser cmp name password).1 = false ∧
    (BasicAuthCheckerFn getUser cmp name password).2.2 ≠ none ∧
    Validate tok claims = false := by
  refine ⟨?_, ?_, ?_⟩
  · simp [BasicAuthCheckerFn, hu, hd]
  · simp [BasicAuthCheckerFn, hu, hd]
  · simp [Validate, hcu, hdis]

/-- Witness for C1 at the concrete disabled user `bob`. -/
theorem disabled_user_never_authenticates_witness :
    (BasicAuthCheckerFn demoStore demoCompare "bob" "any-password").1 = false ∧
    (BasicAuthCheckerFn demoStore demoCompare "bob" "any-password").2.2 ≠ none ∧
    Validate "some-token" bobClaims = false :=
  disabled_user_never_authenticates demoStore demoCompare "bob"
    "any-password" "some-token" bobUser bobClaims bobTokenUser
    (by rfl) (by rfl) (by rfl) (by rfl)

/-- C2: `BasicAuthCheckerFn` returns `ok = true` iff the store lookup
succeeds, the user is not disabled and `ComparePassword(storedHash,
password)` holds; on success the returned claim carries exactly the stored
name, role, the numeric id as the `"uid"` attribute and the decimal string
id. -/
theorem basicAuth_ok_iff (getUser : GetUserFn) (cmp : CompareFn)
    (name password : String) :
    ((BasicAuthCheckerFn getUser cmp name password).1 = true ↔
      ∃ u, getUser name = .ok u ∧ u.disabled = false ∧
        cmp u.password password = true) ∧
    (∀ u, getUser name = .ok u → u.disabled = false →
      cmp u.password password = true →
      (BasicAuthCheckerFn getUser cmp name password).2.1 =
        { name := u.name, id := toString u.id, role := u.role,
          attributes := some [("uid", Attr.aInt u.id)] }) := by
  constructor
  · constructor
    · intro hok
      cases hg : getUser name with
      | error e => simp [BasicAuthCheckerFn, hg] at hok
      | ok u =>
        by_cases hd : u.disabled
        · simp [BasicAuthCheckerFn, hg, hd] at hok
        · by_cases hc : cmp u.password password
          · exact ⟨u, rfl, by simpa using hd, hc⟩
          · simp [BasicAuthCheckerFn, hg, hd, hc] at hok
    · rintro ⟨u, hg, hd, hc⟩
      simp [BasicAuthCheckerFn, hg, hd, hc]
  · intro u hg hd hc
    simp [BasicAuthCheckerFn, hg, hd, hc, TokenUser.empty, attrsOrEmpty,
      mapSet]

/-- Witness for C2: alice logs in with the right password and the claim
carries her stored identity. -/
theorem basicAuth_ok_iff_witness :
    (BasicAuthCheckerFn demoStore demoCompare "alice" "secret").2.1 =
      { name := "alice", id := "7", role := "manager",
        attributes := some [("uid", Attr.aInt 7)] } :=
  (basicAuth_ok_iff demoStore demoCompare "alice" "secret").2 aliceUser
    (by rfl) (by rfl) (by rfl)

/-- C8: `BasicAuthCheckerFn` returns a non-nil error only for a disabled
account: a failed store lookup or a password mismatch both yield
`(false, empty claim, nil error)`, so only the disabled-account case is
distinguishable as an error at the public interface. -/
theorem basicAuth_error_only_for_disabled (getUser : GetUserFn)
    (cmp : CompareFn) (name password : String) :
    (∀ e, getUser name = .error e →
      BasicAuthCheckerFn getUser cmp name password =
        (false, TokenUser.empty, none)) ∧
    (∀ u, getUser name = .ok u → u.disabled = false →
      cmp u.password password = false →
      BasicAuthCheckerFn getUser cmp name password =
        (false, TokenUser.empty, none)) ∧
    ((BasicAuthCheckerFn getUser cmp name password).2.2 ≠ none →
      ∃ u, getUser name = .ok u ∧ u.disabled = true) := by
  refine ⟨?_, ?_, ?_⟩
  · intro e he
    simp [BasicAuthCheckerFn, he]
  · intro u hg hd hc
    simp [BasicAuthCheckerFn, hg, hd, hc]
  · intro herr
    cases hg : getUser name with
    | error e => simp [BasicAuthCheckerFn, hg] at herr
    | ok u =>
      by_cases hd : u.disabled
      · exact ⟨u, rfl, by simpa using hd⟩
      · by_cases hc : cmp u.password password <;>
          simp [BasicAuthCheckerFn, hg, hd, hc] at herr

/-- Witness for C8: an unknown user yields `ok = false` with a nil error. -/
theorem basicAuth_error_only_for_disabled_witness :
    BasicAuthCheckerFn demoStore demoCompare "nobody" "any-password" =
      (false, TokenUser.empty, none) :=
  (basicAuth_error_only_for_disabled demoStore demoCompare "nobody"
    "any-password").1 "user not found" (by rfl)

/-- C10: `Check` is exactly the `(ok, err)` projection of
`BasicAuthCheckerFn`: the two functions agree on success and on the
returned error in all cases. -/
theorem check_eq_basicAuth_projection (getUser : GetUserFn)
    (cmp : CompareFn) (user password : String) :
    Check getUser cmp user password =
      ((BasicAuthCheckerFn getUser cmp user password).1,
       (BasicAuthCheckerFn getUser cmp user password).2.2) := rfl

/-- C9: `ClaimUpdateFn` is frame-preserving and atomic on error: a failed
store lookup returns the input claims completely unchanged; a successful
lookup rewrites only the user role and the `"disabled"` and `"uid"`
attributes, preserving the user name, id, every other attribute, and every
other field of the claims. -/
theorem claimUpdate_frame (getUser : GetUserFn) (claims : Claims)
    (cu : TokenUser) (hcu : claims.user = some cu) :
    (∀ e, getUser cu.name = .error e →
      ClaimUpdateFn getUser claims = some claims) ∧
    (∀ u, getUser cu.name = .ok u →
      ∃ cu2, ClaimUpdateFn getUser claims =
          some { claims with user := some cu2 } ∧
        cu2.name = cu.name ∧ cu2.id = cu.id ∧ cu2.role = u.role ∧
        cu2.attrGet "disabled" = some (Attr.aBool u.disabled) ∧
        cu2.attrGet "uid" = some (Attr.aInt u.id) ∧
        ∀ k, k ≠ "disabled" → k ≠ "uid" →
          cu2.attrGet k = cu.attrGet k) := by
  constructor
  · intro e he
    simp [ClaimUpdateFn, hcu, he]
  · intro u hg
    refine ⟨{ cu with
                role := u.role,
                attributes := some (mapSet
                  (mapSet (attrsOrEmpty cu.attributes) "disabled"
                    (Attr.aBool u.disabled)) "uid" (Attr.aInt u.id)) },
      ?_, rfl, rfl, rfl, ?_, ?_, ?_⟩
    · simp [ClaimUpdateFn, hcu, hg]
    · show mapGet _ "disabled" = _
      rw [mapGet_set_other _ _ _ _ (by decide), mapGet_set_self]
    · show mapGet _ "uid" = _
      rw [mapGet_set_self]
    · intro k hk1 hk2
      show mapGet _ k = _
      rw [mapGet_set_other _ _ _ _ hk2, mapGet_set_other _ _ _ _ hk1]
      cases hattr : cu.attributes <;>
        simp [TokenUser.attrGet, attrsOrEmpty, hattr, mapGet]

/-- Witness for C9 at the concrete claims of alice, whose lookup succeeds
in the demonstration store. -/
theorem claimUpdate_frame_witness :
    (∀ e, demoStore aliceTokenUser.name = .error e →
      ClaimUpdateFn demoStore aliceClaims = some aliceClaims) ∧
    (∀ u, demoStore aliceTokenUser.name = .ok u →
      ∃ cu2, ClaimUpdateFn demoStore aliceClaims =
          some { aliceClaims with user := some cu2 } ∧
        cu2.name = aliceTokenUser.name ∧ cu2.id = aliceTokenUser.id ∧
        cu2.role = u.role ∧
        cu2.attrGet "disabled" = some (Attr.aBool u.disabled) ∧
        cu2.attrGet "uid" = some (Attr.aInt u.id) ∧
        ∀ k, k ≠ "disabled" → k ≠ "uid" →
          cu2.attrGet k = aliceTokenUser.attrGet k) :=
  claimUpdate_frame demoStore aliceClaims aliceTokenUser (by rfl)

/-- C3 counterexample: `GET /registry/catalog` is registered with the
session-auth middleware but with no RBAC middleware at all (server.go:
334-339), so its handler does not execute behind an RBAC check admitting
the admin and manager roles — any authenticated role reaches it. -/
theorem catalog_route_has_no_rbac :
    catalogRoute ∈ registryRoutes ∧
    ¬(chainAuthenticated catalogRoute = true ∧
      chainHasRBAC catalogRoute = true ∧
      chainRBACAdmits catalogRoute "admin" = true ∧
      chainRBACAdmits catalogRoute "manager" = true) := by
  decide

/-- C3 amended: all four admin-facing registry routes require an
authenticated session, but their RBAC guards differ: `GET /registry/catalog`
carries no RBAC check (any authenticated role; per-user filtering is done
in the handler), `GET /registry/catalog/blobs` carries RBAC admitting admin
and manager, and `GET /registry/sync` and `DELETE /registry/catalog/{digest}`
carry RBAC admitting only admin (the RBAC middleware itself authenticates
the session). -/
theorem registry_admin_route_guards :
    (chainAuthenticated catalogRoute = true ∧
     chainHasRBAC catalogRoute = false) ∧
    (chainAuthenticated blobsRoute = true ∧
     chainRBACAdmits blobsRoute "admin" = true ∧
     chainRBACAdmits blobsRoute "manager" = true) ∧
    (chainAuthenticated syncRoute = true ∧
     chainRBACAdmits syncRoute "admin" = true ∧
     chainRBACAdmits syncRoute "manager" = false) ∧
    (chainAuthenticated deleteDigestRoute = true ∧
     chainRBACAdmits deleteDigestRoute "admin" = true ∧
     chainRBACAdmits deleteDigestRoute "manager" = false) := by
  decide

/-- C4 counterexample: when the htpasswd sync fails at startup, `routes`
panics (server.go:253) — no router is produced and the registry routes are
never mounted, so the failure does terminate the process rather than being
surfaced without effect on serving. -/
theorem htpasswd_failure_terminates_startup :
    (routesStartup (.error "store unavailable")).1 =
      .error "failed to update htpasswd: store unavailable" ∧
    StartupEff.mountRegistryRoutes ∉
      (routesStartup (.error "store unavailable")).2 := by
  exact ⟨rfl, by simp [routesStartup]⟩

/-- C4 amended: the htpasswd synchronizer is invoked exactly once at server
startup, before the API routes are mounted and served; on success startup
proceeds, but a sync failure panics and terminates startup instead of being
merely logged. -/
theorem htpasswd_sync_once_at_startup (syncResult : Except String Unit) :
    (routesStartup syncResult).2.count StartupEff.updateHtpasswd = 1 ∧
    (routesStartup syncResult).2.head? = some StartupEff.updateHtpasswd ∧
    (∀ e, syncResult = .error e →
      (routesStartup syncResult).1 =
        .error ("failed to update htpasswd: " ++ e) ∧
      StartupEff.mountRegistryRoutes ∉ (routesStartup syncResult).2) ∧
    (syncResult = .ok () →
      (routesStartup syncResult).1 = .ok registryRoutes) := by
  cases syncResult with
  | error e => refine ⟨by rfl, by rfl, ?_, by simp⟩; intro e2 he2; simp_all [routesStartup]
  | ok u => cases u; refine ⟨by rfl, by rfl, by simp, fun _ => rfl⟩

/-- Witness for C4 amended: a successful sync mounts the registry routes. -/
theorem htpasswd_sync_once_at_startup_witness :
    (routesStartup (.ok ())).1 = .ok registryRoutes :=
  (htpasswd_sync_once_at_startup (.ok ())).2.2.2 rfl

/-- One scheduler event keeps the number of active runs at most one. -/
theorem schedStep_activeRuns_le (s : SchedState) (e : SchedEvent)
    (h : s.activeRuns ≤ 1) : ((schedStep s e).1).activeRuns ≤ 1 := by
  cases e with
  | tick =>
    by_cases hz : s.activeRuns ≠ 0
    · simpa [schedStep, hz] using h
    · simp only [ne_eq, not_not] at hz
      simp [schedStep, hz]
  | finish =>
    simp only [schedStep]
    omega

/-- Every event trace keeps the number of active runs at most one. -/
theorem schedRun_activeRuns_le (es : List SchedEvent) (s : SchedState)
    (h : s.activeRuns ≤ 1) : (schedRun s es).activeRuns ≤ 1 := by
  induction es generalizing s with
  | nil => exact h
  | cons e es ih => exact ih _ (schedStep_activeRuns_le s e h)

/-- C5: the maintenance scheduler never overlaps runs: from the idle
initial state, every event trace keeps at most one run active, and a tick
that fires while a run is still in progress leaves the state unchanged,
reports a skip (not a queueing), and raises no error. -/
theorem maintenance_no_overlapping_runs (es : List SchedEvent)
    (t : SchedState) (ht : t.activeRuns ≠ 0) :
    (schedRun schedInit es).activeRuns ≤ 1 ∧
    schedStep t SchedEvent.tick = (t, SchedOutcome.skipped, none) := by
  refine ⟨schedRun_activeRuns_le es schedInit (by simp [schedInit]), ?_⟩
  simp [schedStep, ht]

/-- Witness for C5: two consecutive ticks without a finish in between, and
a tick against a busy scheduler. -/
theorem maintenance_no_overlapping_runs_witness :
    (schedRun schedInit [SchedEvent.tick, SchedEvent.tick]).activeRuns ≤ 1 ∧
    schedStep { activeRuns := 1 } SchedEvent.tick =
      ({ activeRuns := 1 }, SchedOutcome.skipped, none) :=
  maintenance_no_overlapping_runs [SchedEvent.tick, SchedEvent.tick]
    { activeRuns := 1 } (by decide)

/-- C6: deletion is digest-only: `DeleteTag` consumes a repository name and
the content digest obtained by resolving a tag through the manifest fetch;
the resolved tag does reference that digest, deleting the digest removes
every tag that referenced it, and tags referencing any other digest are
untouched. -/
theorem deleteTag_digest_only (r : RepoState) (tag d : String)
    (h : resolveTagDigest r tag = some d) :
    (tag, d) ∈ r.tags ∧
    (∀ t, (t, d) ∉ (DeleteTag r d).tags) ∧
    (∀ t d2, d2 ≠ d →
      ((t, d2) ∈ (DeleteTag r d).tags ↔ (t, d2) ∈ r.tags)) := by
  refine ⟨?_, ?_, ?_⟩
  · unfold resolveTagDigest at h
    obtain ⟨p, hp, hmap⟩ := Option.map_eq_some'.mp h
    have hmem := List.mem_of_find?_eq_some hp
    have htag : p.1 = tag := by simpa using List.find?_some hp
    have hpair : (tag, d) = p := by
      obtain ⟨p1, p2⟩ := p
      simp_all
    rw [hpair]
    exact hmem
  · intro t hmem
    simp [DeleteTag, List.mem_filter] at hmem
  · intro t d2 hne
    simp [DeleteTag, List.mem_filter, hne]

/-- Witness for C6 on a repository where two tags share one digest. -/
theorem deleteTag_digest_only_witness :
    ("v1", "sha-1") ∈
      (RepoState.mk [("v1", "sha-1"), ("latest", "sha-1"),
        ("v2", "sha-2")]).tags ∧
    (∀ t, (t, "sha-1") ∉
      (DeleteTag (RepoState.mk [("v1", "sha-1"), ("latest", "sha-1"),
        ("v2", "sha-2")]) "sha-1").tags) ∧
    (∀ t d2, d2 ≠ "sha-1" →
      ((t, d2) ∈ (DeleteTag (RepoState.mk [("v1", "sha-1"),
          ("latest", "sha-1"), ("v2", "sha-2")]) "sha-1").tags ↔
        (t, d2) ∈ (RepoState.mk [("v1", "sha-1"), ("latest", "sha-1"),
          ("v2", "sha-2")]).tags)) :=
  deleteTag_digest_only
    (RepoState.mk [("v1", "sha-1"), ("latest", "sha-1"), ("v2", "sha-2")])
    "v1" "sha-1" (by rfl)

/-- C7: paginated listing takes the page-size hint `n` and the opaque
cursor `last`, returns the next page together with whether more pages
remain, and never interprets `last`: the query sent upstream carries `n`
and `last` verbatim, and both `Catalog` and `ListingImageTags` commute
with an arbitrary relabelling of cursor values — their behaviour factors
entirely through echoing the cursor back upstream. -/
theorem pagination_cursor_opaque (upstream : PageQuery → PageResponse)
    (tagsUpstream : String → PageQuery → PageResponse)
    (relabel : String → String) (repoName n last : String) :
    (mkPageQuery n last).last = last ∧
    (mkPageQuery n last).n = n ∧
    Catalog upstream n (relabel last) =
      Catalog (fun q => upstream (mkPageQuery q.n (relabel q.last)))
        n last ∧
    ListingImageTags tagsUpstream repoName n (relabel last) =
      ListingImageTags
        (fun repo q => tagsUpstream repo (mkPageQuery q.n (relabel q.last)))
        repoName n last ∧
    Catalog upstream n last =
      ((upstream (mkPageQuery n last)).items,
       (upstream (mkPageQuery n last)).hasMore) :=
  ⟨rfl, rfl, rfl, rfl, rfl⟩

end RegistryAdmin
